import Mathlib

/-!
Verification of the netwatcher-py location engine.

This file gives a shallow embedding, in Lean 4, of the decision logic of the
netwatcher repository: the location matcher (`src/location/matching.py`), the
settings applier (`src/location/settings.py`), the DNS configuration layer
(`src/network/configuration.py` and the legacy `src/actions.py`), VPN
detection (`src/network/detection.py` and the legacy `src/actions.py`), the
debounced change reactor (`src/watcher.py`), and the configuration repair
pass (`src/config.py`).

Python dictionaries iterate in insertion order, so the `locations` mapping is
embedded as an association list ordered as in the config file.  Functions
whose only effects are subprocess invocations are embedded as pure functions
returning the list of commands they would issue.
-/

namespace NetWatcher

/-- One configured location profile (a `[locations.<name>]` TOML table).
Missing keys read through Python's `dict.get` with these defaults, so the
embedding gives every field its default value; Python truthiness of a missing
or empty value corresponds to `= ""` or `= []` here. -/
structure LocationSettings where
  ssids : List String := []
  dns_servers : List String := []
  dns_search_domains : List String := []
  proxy_url : String := ""
  printer : String := ""
  ntp_server : String := ""
deriving Repr, DecidableEq

/-- The `locations` mapping, in config-file (insertion) order. -/
abbrev Locations := List (String × LocationSettings)

/-- The loaded configuration (`config_data` in the source): its `locations`
mapping. -/
structure Config where
  locations : Locations
deriving Repr, DecidableEq

/-- `_find_vpn_location` (src/location/matching.py:64-70): first non-default
profile with a truthy `proxy_url`. -/
def findVpnLocation : Locations → Option String
  | [] => none
  | p :: rest =>
    if p.1 ≠ "default" ∧ p.2.proxy_url ≠ "" then some p.1
    else findVpnLocation rest

/-- `_find_ssid_location` (src/location/matching.py:73-79): first non-default
profile whose `ssids` list contains the current SSID. -/
def findSsidLocation (locations : Locations) (ssid : String) : Option String :=
  match locations with
  | [] => none
  | p :: rest =>
    if p.1 ≠ "default" ∧ ssid ∈ p.2.ssids then some p.1
    else findSsidLocation rest ssid

/-- `_find_corporate_location` (src/location/matching.py:82-91): first
non-default profile whose `ntp_server` is truthy and differs from
"time.apple.com". -/
def findCorporateLocation : Locations → Option String
  | [] => none
  | p :: rest =>
    if p.1 ≠ "default" ∧ p.2.ntp_server ≠ "" ∧ p.2.ntp_server ≠ "time.apple.com" then
      some p.1
    else findCorporateLocation rest

/-- `_find_domain_location` (src/location/matching.py:94-104): first
non-default profile whose `dns_search_domains` intersects the current search
domains (set intersection is non-empty iff some configured domain occurs in
the current list). -/
def findDomainLocation (locations : Locations) (current_domains : List String) :
    Option String :=
  match locations with
  | [] => none
  | p :: rest =>
    if p.1 ≠ "default" ∧ p.2.dns_search_domains.any (fun d => current_domains.contains d) then
      some p.1
    else findDomainLocation rest current_domains

/-- `_find_home_location` (src/location/matching.py:107-119): first
non-default profile with no proxy and at most two search domains. -/
def findHomeLocation : Locations → Option String
  | [] => none
  | p :: rest =>
    if p.1 ≠ "default" ∧ p.2.proxy_url = "" ∧ p.2.dns_search_domains.length ≤ 2 then
      some p.1
    else findHomeLocation rest

/-- Python truthiness of the `current_ssid` argument (`None` and `""` are
falsy). -/
def ssidTruthy : Option String → Bool
  | none => false
  | some s => !(s == "")

/-- Python truthiness of a finder result inside the cascade: each stage is
`match = _find_x(...); if match: return match`, so both `None` and an
empty-string name count as no match and the cascade falls through to the
next rule. -/
def matchTruthy : Option String → Option String
  | none => none
  | some m => if m = "" then none else some m

/-- `find_matching_location` (src/location/matching.py:15-61): the
priority-ordered cascade.  `vpn_active` is the explicitly supplied flag (the
`None`-defaulting read of live VPN state is resolved by the caller); every
stage's result goes through the `if match:` truthiness guard
(`matchTruthy`). -/
def find_matching_location (config_data : Config) (current_ssid : Option String)
    (current_search_domains : List String) (vpn_active : Bool) : String :=
  match matchTruthy
      (if vpn_active then findVpnLocation config_data.locations else none) with
  | some m => m
  | none =>
    match matchTruthy
        (if !vpn_active && ssidTruthy current_ssid then
          findSsidLocation config_data.locations (current_ssid.getD "")
        else none) with
    | some m => m
    | none =>
      match matchTruthy
          (if !vpn_active && !current_search_domains.isEmpty then
            findDomainLocation config_data.locations current_search_domains
          else none) with
      | some m => m
      | none =>
        match matchTruthy
            (if vpn_active then findCorporateLocation config_data.locations
            else findHomeLocation config_data.locations) with
        | some m => m
        | none => "default"

example :
    find_matching_location
      ⟨[("Office", { ssids := ["CorpWiFi"], proxy_url := "http://proxy.co:8080" }),
        ("default", {})]⟩
      (some "CorpWiFi") [] false = "Office" := by decide

example :
    find_matching_location
      ⟨[("Office", { ntp_server := "time.co.com" }), ("default", {})]⟩
      none [] true = "Office" := by decide

/-! ### Characterizations of the five finder loops -/

theorem findVpnLocation_eq_find? (l : Locations) :
    findVpnLocation l =
      (l.find? fun p => decide (p.1 ≠ "default" ∧ p.2.proxy_url ≠ "")).map Prod.fst := by
  induction l with
  | nil => rfl
  | cons p rest ih =>
    by_cases hp : p.1 ≠ "default" ∧ p.2.proxy_url ≠ "" <;>
      simp [findVpnLocation, List.find?_cons, hp, ih]

theorem findCorporateLocation_eq_find? (l : Locations) :
    findCorporateLocation l =
      (l.find? fun p =>
        decide (p.1 ≠ "default" ∧ p.2.ntp_server ≠ "" ∧ p.2.ntp_server ≠ "time.apple.com")).map
        Prod.fst := by
  induction l with
  | nil => rfl
  | cons p rest ih =>
    by_cases hp : p.1 ≠ "default" ∧ p.2.ntp_server ≠ "" ∧ p.2.ntp_server ≠ "time.apple.com" <;>
      simp [findCorporateLocation, List.find?_cons, hp, ih]

theorem findVpnLocation_spec {l : Locations} {n : String}
    (h : findVpnLocation l = some n) :
    ∃ s, (n, s) ∈ l ∧ n ≠ "default" ∧ s.proxy_url ≠ "" := by
  rw [findVpnLocation_eq_find?] at h
  rcases Option.map_eq_some'.mp h with ⟨p, hp, h2⟩
  have hpred := List.find?_some hp
  have hmem := List.mem_of_find?_eq_some hp
  simp only [decide_eq_true_eq] at hpred
  exact ⟨p.2, by simpa [← h2] using hmem, h2 ▸ hpred.1, hpred.2⟩

theorem findSsidLocation_spec {l : Locations} {ssid n : String}
    (h : findSsidLocation l ssid = some n) :
    ∃ s, (n, s) ∈ l ∧ n ≠ "default" ∧ ssid ∈ s.ssids := by
  induction l with
  | nil => simp [findSsidLocation] at h
  | cons p rest ih =>
    by_cases hp : p.1 ≠ "default" ∧ ssid ∈ p.2.ssids
    · rw [findSsidLocation, if_pos hp] at h
      obtain rfl : p.1 = n := by simpa using h
      exact ⟨p.2, by simp, hp.1, hp.2⟩
    · rw [findSsidLocation, if_neg hp] at h
      rcases ih h with ⟨s, hs, h1, h2⟩
      exact ⟨s, List.mem_cons_of_mem _ hs, h1, h2⟩

theorem findCorporateLocation_spec {l : Locations} {n : String}
    (h : findCorporateLocation l = some n) :
    ∃ s, (n, s) ∈ l ∧ n ≠ "default" ∧ s.ntp_server ≠ "" ∧ s.ntp_server ≠ "time.apple.com" := by
  rw [findCorporateLocation_eq_find?] at h
  rcases Option.map_eq_some'.mp h with ⟨p, hp, h2⟩
  have hpred := List.find?_some hp
  have hmem := List.mem_of_find?_eq_some hp
  simp only [decide_eq_true_eq] at hpred
  exact ⟨p.2, by simpa [← h2] using hmem, h2 ▸ hpred.1, hpred.2.1, hpred.2.2⟩

theorem findDomainLocation_spec {l : Locations} {domains : List String} {n : String}
    (h : findDomainLocation l domains = some n) :
    ∃ s, (n, s) ∈ l ∧ n ≠ "default" ∧
      s.dns_search_domains.any (fun d => domains.contains d) := by
  induction l with
  | nil => simp [findDomainLocation] at h
  | cons p rest ih =>
    by_cases hp : p.1 ≠ "default" ∧ p.2.dns_search_domains.any (fun d => domains.contains d)
    · rw [findDomainLocation, if_pos hp] at h
      obtain rfl : p.1 = n := by simpa using h
      exact ⟨p.2, by simp, hp.1, hp.2⟩
    · rw [findDomainLocation, if_neg hp] at h
      rcases ih h with ⟨s, hs, h1, h2⟩
      exact ⟨s, List.mem_cons_of_mem _ hs, h1, h2⟩

theorem findHomeLocation_spec {l : Locations} {n : String}
    (h : findHomeLocation l = some n) :
    ∃ s, (n, s) ∈ l ∧ n ≠ "default" ∧ s.proxy_url = "" ∧ s.dns_search_domains.length ≤ 2 := by
  induction l with
  | nil => simp [findHomeLocation] at h
  | cons p rest ih =>
    by_cases hp : p.1 ≠ "default" ∧ p.2.proxy_url = "" ∧ p.2.dns_search_domains.length ≤ 2
    · rw [findHomeLocation, if_pos hp] at h
      obtain rfl : p.1 = n := by simpa using h
      exact ⟨p.2, by simp, hp.1, hp.2.1, hp.2.2⟩
    · rw [findHomeLocation, if_neg hp] at h
      rcases ih h with ⟨s, hs, h1, h2, h3⟩
      exact ⟨s, List.mem_cons_of_mem _ hs, h1, h2, h3⟩

/-! ### The truthiness guard on finder results -/

theorem matchTruthy_some {m : String} (h : m ≠ "") :
    matchTruthy (some m) = some m := by
  simp [matchTruthy, h]

theorem matchTruthy_some_elim {o : Option String} {m : String}
    (h : matchTruthy o = some m) : o = some m ∧ m ≠ "" := by
  cases o with
  | none => simp [matchTruthy] at h
  | some s =>
    by_cases hs : s = ""
    · rw [matchTruthy, if_pos hs] at h
      exact absurd h (by simp)
    · rw [matchTruthy, if_neg hs] at h
      obtain rfl := Option.some.inj h
      exact ⟨rfl, hs⟩

theorem matchTruthy_none_of_eq_none {o : Option String} (h : o = none) :
    matchTruthy o = none := by
  rw [h]; rfl

theorem matchTruthy_none : matchTruthy none = none := rfl

/-! ### Reduction lemmas for the cascade -/

theorem find_matching_true_of_vpn_some {cfg : Config} {ssid : Option String}
    {domains : List String} {m : String}
    (h : matchTruthy (findVpnLocation cfg.locations) = some m) :
    find_matching_location cfg ssid domains true = m := by
  simp [find_matching_location, h]

theorem find_matching_true_of_corp_some {cfg : Config} {ssid : Option String}
    {domains : List String} {m : String}
    (h1 : matchTruthy (findVpnLocation cfg.locations) = none)
    (h2 : matchTruthy (findCorporateLocation cfg.locations) = some m) :
    find_matching_location cfg ssid domains true = m := by
  simp [find_matching_location, matchTruthy_none, h1, h2]

theorem find_matching_true_of_none {cfg : Config} {ssid : Option String}
    {domains : List String}
    (h1 : matchTruthy (findVpnLocation cfg.locations) = none)
    (h2 : matchTruthy (findCorporateLocation cfg.locations) = none) :
    find_matching_location cfg ssid domains true = "default" := by
  simp [find_matching_location, matchTruthy_none, h1, h2]

theorem find_matching_false_of_ssid_some {cfg : Config} {ssid : Option String}
    {domains : List String} {m : String}
    (h : matchTruthy
        (if ssidTruthy ssid then findSsidLocation cfg.locations (ssid.getD "") else none)
      = some m) :
    find_matching_location cfg ssid domains false = m := by
  simp only [find_matching_location, Bool.not_false, Bool.true_and, if_neg (by simp : ¬False)]
  simp [matchTruthy_none, h]

theorem find_matching_false_of_domain_some {cfg : Config} {ssid : Option String}
    {domains : List String} {m : String}
    (h1 : matchTruthy
        (if ssidTruthy ssid then findSsidLocation cfg.locations (ssid.getD "") else none)
      = none)
    (h2 : matchTruthy
        (if !domains.isEmpty then findDomainLocation cfg.locations domains else none)
      = some m) :
    find_matching_location cfg ssid domains false = m := by
  cases domains with
  | nil => simp [matchTruthy] at h2
  | cons d ds =>
    simp only [List.isEmpty_cons, Bool.not_false, if_true] at h2
    simp [find_matching_location, matchTruthy_none, h1, h2]

theorem find_matching_false_of_home {cfg : Config} {ssid : Option String}
    {domains : List String}
    (h1 : matchTruthy
        (if ssidTruthy ssid then findSsidLocation cfg.locations (ssid.getD "") else none)
      = none)
    (h2 : matchTruthy
        (if !domains.isEmpty then findDomainLocation cfg.locations domains else none)
      = none) :
    find_matching_location cfg ssid domains false =
      (matchTruthy (findHomeLocation cfg.locations)).getD "default" := by
  cases domains with
  | nil =>
    rcases h3 : matchTruthy (findHomeLocation cfg.locations) with _ | j <;>
      simp [find_matching_location, matchTruthy_none, h1, h3]
  | cons d ds =>
    simp only [List.isEmpty_cons, Bool.not_false, if_true] at h2
    rcases h3 : matchTruthy (findHomeLocation cfg.locations) with _ | j <;>
      simp [find_matching_location, matchTruthy_none, h1, h2, h3]

/-- C1 counterexample: a locations mapping whose only (hence first)
non-default proxy-bearing profile is named `""`.  The claim's hypothesis
holds, yet the program drops the VPN rule's result at the `if match:`
truthiness guard and falls through to "default" instead of returning the
first such profile's name. -/
theorem vpn_proxy_rule_counterexample :
    (("" : String) ≠ "default" ∧
      ({ proxy_url := "http://proxy.co:8080" } : LocationSettings).proxy_url ≠ "") ∧
    findVpnLocation [("", { proxy_url := "http://proxy.co:8080" })] = some "" ∧
    find_matching_location ⟨[("", { proxy_url := "http://proxy.co:8080" })]⟩
      none [] true = "default" := by
  refine ⟨⟨by decide, by decide⟩, by decide, by decide⟩

/-- C1 amended: with `vpn_active = True`, if at least one non-default
profile has a non-empty `proxy_url`, then the first such profile in the
mapping's insertion order (the `List.find?` witness over the ordered
association list) is non-default with a non-empty `proxy_url` — so this rule
never selects a profile whose `proxy_url` is empty — and, provided that
profile's name is non-empty, `find_matching_location` returns exactly that
name.  (When the first such profile is named `""`, the `if match:` guard
discards the rule's result — without scanning later proxy-bearing profiles —
and the cascade falls through.) -/
theorem vpn_proxy_rule_first_match (config_data : Config) (ssid : Option String)
    (domains : List String) (p : String × LocationSettings)
    (hmem : p ∈ config_data.locations) (hnd : p.1 ≠ "default")
    (hproxy : p.2.proxy_url ≠ "") :
    ∃ q : String × LocationSettings,
      config_data.locations.find?
        (fun r => decide (r.1 ≠ "default" ∧ r.2.proxy_url ≠ "")) = some q ∧
      (q.1 ≠ "" → find_matching_location config_data ssid domains true = q.1) ∧
      q.1 ≠ "default" ∧ q.2.proxy_url ≠ "" := by
  have hsome : (config_data.locations.find?
      (fun r => decide (r.1 ≠ "default" ∧ r.2.proxy_url ≠ ""))).isSome := by
    exact List.find?_isSome.mpr ⟨p, hmem, by simp [hnd, hproxy]⟩
  rcases Option.isSome_iff_exists.mp hsome with ⟨q, hq⟩
  have hpred := List.find?_some hq
  simp only [decide_eq_true_eq] at hpred
  refine ⟨q, hq, ?_, hpred.1, hpred.2⟩
  intro hq1
  apply find_matching_true_of_vpn_some
  rw [findVpnLocation_eq_find?, hq]
  exact matchTruthy_some hq1

/-- Closed instance of C1 (amended): a two-profile config where `Office`
carries the proxy; the matcher picks `Office` under VPN. -/
theorem vpn_proxy_rule_first_match_witness :
    ∃ q : String × LocationSettings,
      (Config.mk [("Office", { proxy_url := "http://proxy.co:8080" }), ("default", {})]
        ).locations.find?
        (fun r => decide (r.1 ≠ "default" ∧ r.2.proxy_url ≠ "")) = some q ∧
      (q.1 ≠ "" → find_matching_location
        ⟨[("Office", { proxy_url := "http://proxy.co:8080" }), ("default", {})]⟩
        (some "HomeWiFi") ["corp.com"] true = q.1) ∧
      q.1 ≠ "default" ∧ q.2.proxy_url ≠ "" :=
  vpn_proxy_rule_first_match
    ⟨[("Office", { proxy_url := "http://proxy.co:8080" }), ("default", {})]⟩
    (some "HomeWiFi") ["corp.com"]
    ("Office", { proxy_url := "http://proxy.co:8080" })
    (by decide) (by decide) (by decide)

/-- C8 counterexample: a locations mapping whose only (hence first)
custom-NTP non-default profile is named `""`, with no proxy-bearing profile.
The corporate finder returns that profile, but the program's `if match:`
truthiness guard discards the empty-string name and the matcher returns
"default" instead of the first custom-NTP profile's name. -/
theorem vpn_corporate_ntp_counterexample :
    findVpnLocation [("", { ntp_server := "time.co.com" })] = none ∧
    findCorporateLocation [("", { ntp_server := "time.co.com" })] = some "" ∧
    find_matching_location ⟨[("", { ntp_server := "time.co.com" })]⟩
      none [] true = "default" := by
  refine ⟨by decide, by decide, by decide⟩

/-- C8 amended: with `vpn_active = True` and no non-default profile carrying
a `proxy_url`, the matcher falls through to the corporate-NTP rule and,
provided the first non-default profile whose `ntp_server` is non-empty and
differs from "time.apple.com" has a non-empty name, returns that profile's
name (when that first profile is named `""` the rule's result is discarded
by the `if match:` guard and the matcher falls through to "default" without
scanning later custom-NTP profiles).  The SSID and search-domain rules are
never consulted under VPN (the result does not depend on those two inputs at
all), and in the concrete `Office`/`default` scenario the result is
"Office". -/
theorem vpn_corporate_ntp_fallback (config_data : Config)
    (hnoproxy : findVpnLocation config_data.locations = none) :
    (∀ (m : String), findCorporateLocation config_data.locations = some m → m ≠ "" →
      ∀ (ssid : Option String) (domains : List String),
        find_matching_location config_data ssid domains true = m ∧
        ∃ s, (m, s) ∈ config_data.locations ∧ m ≠ "default" ∧
          s.ntp_server ≠ "" ∧ s.ntp_server ≠ "time.apple.com") ∧
    (∀ (ssid1 ssid2 : Option String) (d1 d2 : List String),
      find_matching_location config_data ssid1 d1 true =
        find_matching_location config_data ssid2 d2 true) ∧
    find_matching_location
      ⟨[("Office", { ntp_server := "time.co.com" }), ("default", {})]⟩
      none [] true = "Office" := by
  have hvt : matchTruthy (findVpnLocation config_data.locations) = none :=
    matchTruthy_none_of_eq_none hnoproxy
  refine ⟨?_, ?_, by decide⟩
  · intro m hm hmne ssid domains
    have hct : matchTruthy (findCorporateLocation config_data.locations) = some m := by
      rw [hm]; exact matchTruthy_some hmne
    exact ⟨find_matching_true_of_corp_some hvt hct, findCorporateLocation_spec hm⟩
  · intro ssid1 ssid2 d1 d2
    rcases hc : matchTruthy (findCorporateLocation config_data.locations) with _ | k
    · rw [find_matching_true_of_none hvt hc, find_matching_true_of_none hvt hc]
    · rw [find_matching_true_of_corp_some hvt hc,
        find_matching_true_of_corp_some hvt hc]

/-- Closed instance of C8 at the spec's scenario config. -/
theorem vpn_corporate_ntp_fallback_witness :
    find_matching_location
      ⟨[("Office", { ntp_server := "time.co.com" }), ("default", {})]⟩
      none [] true = "Office" :=
  (vpn_corporate_ntp_fallback
    ⟨[("Office", { ntp_server := "time.co.com" }), ("default", {})]⟩
    (by decide)).2.2

/-- C10: on every input the matcher returns a string that is either the
literal "default" or a non-default key of the `locations` mapping; no
heuristic finder ever returns the profile named "default"; and the final
fallback returns "default" even when no profile of that name exists (shown
on the empty mapping, which has no keys at all). -/
theorem matcher_result_invariants (config_data : Config) (ssid : Option String)
    (domains : List String) (vpn : Bool) :
    (find_matching_location config_data ssid domains vpn = "default" ∨
      (find_matching_location config_data ssid domains vpn ≠ "default" ∧
        ∃ s, (find_matching_location config_data ssid domains vpn, s)
          ∈ config_data.locations)) ∧
    (∀ l : Locations, findVpnLocation l ≠ some "default") ∧
    (∀ (l : Locations) (s : String), findSsidLocation l s ≠ some "default") ∧
    (∀ l : Locations, findCorporateLocation l ≠ some "default") ∧
    (∀ (l : Locations) (d : List String), findDomainLocation l d ≠ some "default") ∧
    (∀ l : Locations, findHomeLocation l ≠ some "default") ∧
    find_matching_location ⟨[]⟩ ssid domains vpn = "default" := by
  refine ⟨?_, ?_, ?_, ?_, ?_, ?_, ?_⟩
  · cases vpn
    · rcases h1 : matchTruthy (if ssidTruthy ssid then
          findSsidLocation config_data.locations (ssid.getD "") else none) with _ | m
      · rcases h2 : matchTruthy (if !domains.isEmpty then
            findDomainLocation config_data.locations domains else none) with _ | k
        · rw [find_matching_false_of_home h1 h2]
          rcases h3 : matchTruthy (findHomeLocation config_data.locations) with _ | j
          · left; rfl
          · obtain ⟨h3a, _⟩ := matchTruthy_some_elim h3
            rcases findHomeLocation_spec h3a with ⟨s, hs, hnd, _⟩
            exact Or.inr ⟨by simpa using hnd, s, by simpa using hs⟩
        · rw [find_matching_false_of_domain_some h1 h2]
          obtain ⟨h2a, _⟩ := matchTruthy_some_elim h2
          have h2' : findDomainLocation config_data.locations domains = some k := by
            by_cases hd : (!domains.isEmpty) = true
            · rwa [if_pos hd] at h2a
            · rw [if_neg hd] at h2a; exact absurd h2a (by simp)
          rcases findDomainLocation_spec h2' with ⟨s, hs, hnd, _⟩
          exact Or.inr ⟨hnd, s, hs⟩
      · rw [find_matching_false_of_ssid_some h1]
        obtain ⟨h1a, _⟩ := matchTruthy_some_elim h1
        have h1' : findSsidLocation config_data.locations (ssid.getD "") = some m := by
          by_cases hd : ssidTruthy ssid = true
          · rwa [if_pos hd] at h1a
          · rw [if_neg hd] at h1a; exact absurd h1a (by simp)
        rcases findSsidLocation_spec h1' with ⟨s, hs, hnd, _⟩
        exact Or.inr ⟨hnd, s, hs⟩
    · rcases h1 : matchTruthy (findVpnLocation config_data.locations) with _ | m
      · rcases h2 : matchTruthy (findCorporateLocation config_data.locations) with _ | k
        · rw [find_matching_true_of_none h1 h2]; left; rfl
        · rw [find_matching_true_of_corp_some h1 h2]
          obtain ⟨h2a, _⟩ := matchTruthy_some_elim h2
          rcases findCorporateLocation_spec h2a with ⟨s, hs, hnd, _⟩
          exact Or.inr ⟨hnd, s, hs⟩
      · rw [find_matching_true_of_vpn_some h1]
        obtain ⟨h1a, _⟩ := matchTruthy_some_elim h1
        rcases findVpnLocation_spec h1a with ⟨s, hs, hnd, _⟩
        exact Or.inr ⟨hnd, s, hs⟩
  · intro l h; rcases findVpnLocation_spec h with ⟨_, _, hnd, _⟩; exact hnd rfl
  · intro l s h; rcases findSsidLocation_spec h with ⟨_, _, hnd, _⟩; exact hnd rfl
  · intro l h; rcases findCorporateLocation_spec h with ⟨_, _, hnd, _⟩; exact hnd rfl
  · intro l d h; rcases findDomainLocation_spec h with ⟨_, _, hnd, _⟩; exact hnd rfl
  · intro l h; rcases findHomeLocation_spec h with ⟨_, _, hnd, _⟩; exact hnd rfl
  · cases vpn <;>
      simp [find_matching_location, findVpnLocation, findSsidLocation,
        findDomainLocation, findCorporateLocation, findHomeLocation, ssidTruthy,
        matchTruthy]

/-! ### Commands issued to the operating system

Functions whose only effect is invoking `networksetup`/`lpadmin`/`systemsetup`
are embedded as pure functions returning the list of commands issued. -/

inductive Command
  | setSearchDomains (service : String) (args : List String)
  | setDnsServers (service : String) (args : List String)
  | setProxy (service : String) (url : Option String)
  | setDefaultPrinter (printer : String)
  | setNtpServer (server : String)
  | updateShellProxy (proxy_url : String) (domains : List String)
deriving Repr, DecidableEq

/-- Python `str.endswith(suffix)`, via the underlying character list. -/
def strEndsWith (s suffix : String) : Bool := suffix.data.isSuffixOf s.data

/-- Python `list(dict.fromkeys(xs))`: de-duplicate keeping the first
occurrence, preserving order; `seen` holds the elements already emitted. -/
def dedupKeepFirst (seen : List String) : List String → List String
  | [] => []
  | x :: xs => if x ∈ seen then dedupKeepFirst seen xs
               else x :: dedupKeepFirst (x :: seen) xs

/-- `set_search_domains` (src/network/configuration.py:45-66): an empty list
is replaced by the literal argument "Empty" (clearing the domains), otherwise
the domains are passed verbatim. -/
def set_search_domains (service_name : String) (domains : List String) : List Command :=
  if domains.isEmpty then [Command.setSearchDomains service_name ["Empty"]]
  else [Command.setSearchDomains service_name domains]

/-- `set_dns_servers` (src/network/configuration.py:20-42): an empty list
issues no command at all ("leaving DHCP in control" per its log message),
otherwise the servers are set verbatim. -/
def set_dns_servers (service_name : String) (dns_servers : List String) : List Command :=
  if dns_servers.isEmpty then []
  else [Command.setDnsServers service_name dns_servers]

/-- Legacy `set_dns_servers` (src/actions.py:399-419): an empty list issues
an explicit clear via the literal argument "Empty", otherwise the servers are
set verbatim. -/
def actions_set_dns_servers (service_name : String) (dns_servers : List String) :
    List Command :=
  if dns_servers.isEmpty then [Command.setDnsServers service_name ["Empty"]]
  else [Command.setDnsServers service_name dns_servers]

/-- The search-domain reconciliation of `apply_location_settings`
(src/location/settings.py:52-66), extracted as a function of the profile
domains, the live current domains of the target interface, and the VPN flag. -/
def reconcileSearchDomains (config_domains current_domains : List String)
    (vpn_active : Bool) : List String :=
  if !config_domains.isEmpty then
    if vpn_active || current_domains.isEmpty then
      dedupKeepFirst [] (config_domains ++ current_domains)
    else
      dedupKeepFirst [] (config_domains ++
        current_domains.filter (fun d => strEndsWith d ".local" || strEndsWith d ".arpa"))
  else current_domains

/-- `apply_location_settings` (src/location/settings.py:34-78).
`current_domains` is the probed `get_current_search_domains(interface_name)`
result, and `vpn_active` the explicitly resolved flag; `proxy_result` is the
`proxy_result` argument with Python truthiness (`""` disables the proxy). -/
def apply_location_settings (location_config : LocationSettings) (service_name : String)
    (current_domains : List String) (vpn_active : Bool) (skip_dns : Bool)
    (proxy_result : String) : List Command :=
  (if !skip_dns then
    set_search_domains service_name
      (reconcileSearchDomains location_config.dns_search_domains current_domains vpn_active)
    ++ set_dns_servers service_name location_config.dns_servers
  else [])
  ++ (if proxy_result ≠ "" then [Command.setProxy service_name (some proxy_result)]
      else [Command.setProxy service_name none])

/-- The `(service_name, interface, service_id)` triple returned by
`get_primary_service_interface`. -/
structure NetworkInfo where
  service_name : Option String
  interface : Option String
  service_id : Option String
deriving Repr, DecidableEq

/-- The probed network state consumed by one run of
`check_and_apply_location_settings`: the primary-service triple (`none` when
`_get_current_network_info` raised), the current SSID, the current search
domains for the primary interface, the VPN flag, the active services
(name, interface pairs), and the per-interface live search domains. -/
structure ProbeState where
  network_info : Option NetworkInfo
  current_ssid : Option String
  current_search_domains : List String
  vpn_active : Bool
  active_services : List (String × String)
  domains_for_interface : String → List String

/-- `check_and_apply_location_settings` (src/location/settings.py:81-169),
returning the `(location_name, vpn_active)` pair it reports plus the list of
commands it issues.  The source applies each active service with
`skip_dns = vpn_active`, then printer and NTP when non-empty, then the
shell-proxy update. -/
def check_and_apply_location_settings (cfg : Config) (probe : ProbeState)
    (apply : Bool) : String × Bool × List Command :=
  match probe.network_info with
  | none => ("Unknown", false, [])
  | some _ =>
    let location_name := find_matching_location cfg probe.current_ssid
        probe.current_search_domains probe.vpn_active
    match cfg.locations.find? (fun p => p.1 == location_name) with
    | none => ("Unknown", probe.vpn_active, [])
    | some q =>
      if apply then
        let location_config := q.2
        let proxy_url := location_config.proxy_url
        let serviceCmds := probe.active_services.flatMap fun si =>
          apply_location_settings location_config si.1
            (probe.domains_for_interface si.2) probe.vpn_active probe.vpn_active proxy_url
        let printerCmds := if location_config.printer ≠ "" then
            [Command.setDefaultPrinter location_config.printer] else []
        let ntpCmds := if location_config.ntp_server ≠ "" then
            [Command.setNtpServer location_config.ntp_server] else []
        (location_name, probe.vpn_active,
          serviceCmds ++ printerCmds ++ ntpCmds ++
            [Command.updateShellProxy proxy_url location_config.dns_search_domains])
      else (location_name, probe.vpn_active, [])

/-- C4: search-domain reconciliation.  With a non-empty profile domain list:
on VPN or with no live domains the applied list is the de-duplicated
concatenation of the profile domains and then the live domains; off VPN with
live domains present it is the profile domains plus only the live domains
ending in ".local" or ".arpa" (de-duplicated, first occurrence kept).  The
spec's concrete instance yields ["corp.com", "home.arpa"].  With no profile
domains the live domains pass through unchanged.  The last conjunct ties the
extracted reconciliation back to `apply_location_settings`. -/
theorem search_domain_reconciliation :
    (∀ (config_domains current_domains : List String) (vpn_active : Bool),
      config_domains ≠ [] → (vpn_active = true ∨ current_domains = []) →
      reconcileSearchDomains config_domains current_domains vpn_active =
        dedupKeepFirst [] (config_domains ++ current_domains)) ∧
    (∀ (config_domains current_domains : List String),
      config_domains ≠ [] → current_domains ≠ [] →
      reconcileSearchDomains config_domains current_domains false =
        dedupKeepFirst [] (config_domains ++
          current_domains.filter
            (fun d => strEndsWith d ".local" || strEndsWith d ".arpa"))) ∧
    reconcileSearchDomains ["corp.com"] ["corp.com", "home.arpa"] false
      = ["corp.com", "home.arpa"] ∧
    (∀ (current_domains : List String) (vpn_active : Bool),
      reconcileSearchDomains [] current_domains vpn_active = current_domains) ∧
    (∀ (location_config : LocationSettings) (service_name : String)
      (current_domains : List String) (vpn_active : Bool) (proxy_result : String),
      apply_location_settings location_config service_name current_domains
          vpn_active false proxy_result =
        set_search_domains service_name
          (reconcileSearchDomains location_config.dns_search_domains
            current_domains vpn_active)
        ++ set_dns_servers service_name location_config.dns_servers
        ++ (if proxy_result ≠ "" then
              [Command.setProxy service_name (some proxy_result)]
            else [Command.setProxy service_name none])) := by
  refine ⟨?_, ?_, by decide, ?_, ?_⟩
  · intro config_domains current_domains vpn_active h1 h2
    obtain ⟨a, as, rfl⟩ := List.exists_cons_of_ne_nil h1
    rcases h2 with rfl | rfl <;> simp [reconcileSearchDomains]
  · intro config_domains current_domains h1 h2
    obtain ⟨a, as, rfl⟩ := List.exists_cons_of_ne_nil h1
    obtain ⟨b, bs, rfl⟩ := List.exists_cons_of_ne_nil h2
    simp [reconcileSearchDomains]
  · intro current_domains vpn_active
    simp [reconcileSearchDomains]
  · intro location_config service_name current_domains vpn_active proxy_result
    simp [apply_location_settings]

/-- Closed instance of C4: both the VPN branch and the spec's off-VPN
concrete example, obtained from `search_domain_reconciliation`. -/
theorem search_domain_reconciliation_witness :
    reconcileSearchDomains ["corp.com"] ["a.internal"] true =
      dedupKeepFirst [] (["corp.com"] ++ ["a.internal"]) ∧
    reconcileSearchDomains ["corp.com"] ["corp.com", "home.arpa"] false =
      dedupKeepFirst [] (["corp.com"] ++
        (["corp.com", "home.arpa"].filter
          (fun d => strEndsWith d ".local" || strEndsWith d ".arpa"))) ∧
    reconcileSearchDomains [] ["corp.com"] false = ["corp.com"] :=
  ⟨search_domain_reconciliation.1 ["corp.com"] ["a.internal"] true
      (by decide) (Or.inl rfl),
    search_domain_reconciliation.2.1 ["corp.com"] ["corp.com", "home.arpa"]
      (by decide) (by decide),
    search_domain_reconciliation.2.2.2.1 ["corp.com"] false⟩

/-- C5 counterexample: for an empty `dns_servers` list the live
`network.configuration.set_dns_servers` issues no command at all — it does
not explicitly hand control back to DHCP, so previously configured servers
stay in effect — while the legacy `actions.set_dns_servers` is the variant
that issues the explicit "Empty" clear. -/
theorem empty_dns_clear_counterexample :
    set_dns_servers "Wi-Fi" [] = [] ∧
    actions_set_dns_servers "Wi-Fi" [] = [Command.setDnsServers "Wi-Fi" ["Empty"]] :=
  ⟨rfl, rfl⟩

/-- C5 amended: for an empty `dns_servers` list the configuration-module
implementation issues no command (silently leaving whatever servers are
currently set), while the legacy actions-module implementation explicitly
clears to DHCP with the literal "Empty"; neither ever issues a set command
whose argument list is empty; and a non-empty list is set verbatim by both,
without merging live servers. -/
theorem dns_servers_set_behavior (service_name : String) (dns_servers : List String) :
    (dns_servers = [] →
      set_dns_servers service_name dns_servers = [] ∧
      actions_set_dns_servers service_name dns_servers
        = [Command.setDnsServers service_name ["Empty"]]) ∧
    (dns_servers ≠ [] →
      set_dns_servers service_name dns_servers
        = [Command.setDnsServers service_name dns_servers] ∧
      actions_set_dns_servers service_name dns_servers
        = [Command.setDnsServers service_name dns_servers]) ∧
    (∀ c ∈ set_dns_servers service_name dns_servers,
      ∀ s args, c = Command.setDnsServers s args → args ≠ []) ∧
    (∀ c ∈ actions_set_dns_servers service_name dns_servers,
      ∀ s args, c = Command.setDnsServers s args → args ≠ []) := by
  refine ⟨?_, ?_, ?_, ?_⟩
  · rintro rfl
    exact ⟨rfl, rfl⟩
  · intro h
    obtain ⟨a, as, rfl⟩ := List.exists_cons_of_ne_nil h
    exact ⟨by simp [set_dns_servers], by simp [actions_set_dns_servers]⟩
  · intro c hc s args hargs
    rcases dns_servers with _ | ⟨a, as⟩
    · simp [set_dns_servers] at hc
    · simp [set_dns_servers] at hc
      subst hc
      cases hargs
      simp
  · intro c hc s args hargs
    rcases dns_servers with _ | ⟨a, as⟩
    · simp [actions_set_dns_servers] at hc
      subst hc
      cases hargs
      simp
    · simp [actions_set_dns_servers] at hc
      subst hc
      cases hargs
      simp

/-- Closed instance of C5 (amended): behavior at an empty and a non-empty
server list. -/
theorem dns_servers_set_behavior_witness :
    set_dns_servers "Wi-Fi" ["1.1.1.1"] = [Command.setDnsServers "Wi-Fi" ["1.1.1.1"]] ∧
    actions_set_dns_servers "Wi-Fi" [] = [Command.setDnsServers "Wi-Fi" ["Empty"]] :=
  ⟨((dns_servers_set_behavior "Wi-Fi" ["1.1.1.1"]).2.1 (by decide)).1,
    ((dns_servers_set_behavior "Wi-Fi" []).1 rfl).2⟩

/-- C3: the matcher always selects exactly one name (it is a total function
into `String`); when no heuristic finder matches anything the result is
"default"; and when the selected name — "default" included — is not a key of
the `locations` mapping, `check_and_apply_location_settings` returns
"Unknown" and issues no commands. -/
theorem default_fallback_and_unknown_guard :
    (∀ (cfg : Config) (ssid : Option String) (domains : List String) (vpn : Bool),
      findVpnLocation cfg.locations = none →
      (∀ s, findSsidLocation cfg.locations s = none) →
      findDomainLocation cfg.locations domains = none →
      findCorporateLocation cfg.locations = none →
      findHomeLocation cfg.locations = none →
      find_matching_location cfg ssid domains vpn = "default") ∧
    (∀ (cfg : Config) (probe : ProbeState) (ap : Bool),
      probe.network_info ≠ none →
      cfg.locations.find? (fun p => p.1 == find_matching_location cfg probe.current_ssid
        probe.current_search_domains probe.vpn_active) = none →
      check_and_apply_location_settings cfg probe ap
        = ("Unknown", probe.vpn_active, [])) := by
  constructor
  · intro cfg ssid domains vpn h1 h2 h3 h4 h5
    cases vpn
    · have hs : matchTruthy (if ssidTruthy ssid then
          findSsidLocation cfg.locations (ssid.getD "") else none) = none := by
        by_cases hd : ssidTruthy ssid = true
        · rw [if_pos hd, h2 (ssid.getD "")]; rfl
        · rw [if_neg hd]; rfl
      have hdum : matchTruthy (if !domains.isEmpty then
          findDomainLocation cfg.locations domains else none) = none := by
        by_cases hd : (!domains.isEmpty) = true
        · rw [if_pos hd, h3]; rfl
        · rw [if_neg hd]; rfl
      rw [find_matching_false_of_home hs hdum, h5]
      rfl
    · exact find_matching_true_of_none (matchTruthy_none_of_eq_none h1)
        (matchTruthy_none_of_eq_none h4)
  · intro cfg probe ap hinfo hfind
    rcases hni : probe.network_info with _ | info
    · exact absurd hni hinfo
    · simp only [check_and_apply_location_settings, hni]
      rw [hfind]

/-- A concrete probe for the C3 witness: primary service resolved, no SSID,
no search domains, no VPN. -/
def probeNoMatch : ProbeState where
  network_info := some ⟨some "Wi-Fi", some "en0", some "A1B2"⟩
  current_ssid := none
  current_search_domains := []
  vpn_active := false
  active_services := [("Wi-Fi", "en0")]
  domains_for_interface := fun _ => []

/-- Closed instance of C3: a single `Office` profile with no proxy, no NTP,
empty SSID list and three search domains defeats every finder; no `default`
profile exists, so the matcher falls back to the literal "default" and the
applier reports "Unknown" with no commands issued. -/
theorem default_fallback_and_unknown_guard_witness :
    find_matching_location
        ⟨[("Office", { dns_search_domains := ["a.corp.com", "b.corp.com", "c.corp.com"] })]⟩
        none [] false = "default" ∧
    check_and_apply_location_settings
        ⟨[("Office", { dns_search_domains := ["a.corp.com", "b.corp.com", "c.corp.com"] })]⟩
        probeNoMatch true
      = ("Unknown", false, []) :=
  ⟨default_fallback_and_unknown_guard.1
      ⟨[("Office", { dns_search_domains := ["a.corp.com", "b.corp.com", "c.corp.com"] })]⟩
      none [] false
      (by decide) (fun s => by simp [findSsidLocation]) (by decide) (by decide) (by decide),
    default_fallback_and_unknown_guard.2
      ⟨[("Office", { dns_search_domains := ["a.corp.com", "b.corp.com", "c.corp.com"] })]⟩
      probeNoMatch true
      (by simp [probeNoMatch]) (by decide)⟩

/-! ### VPN detection -/

/-- Python `str.startswith(pre)`, via the underlying character list. -/
def strStartsWith (s pre : String) : Bool := pre.data.isPrefixOf s.data

/-- `is_vpn_active` (src/network/detection.py:126-146): True iff the default
route interface is Python-truthy and starts with the VPN interface tag
"utun" (`VPN_INTERFACE_PREFIX` in src/network/init); no DNS-resolver check
is performed.  The source's exception path returns False and is covered by
the `none` case of the probed interface. -/
def is_vpn_active (default_interface : Option String) : Bool :=
  match default_interface with
  | none => false
  | some i => if i = "" then false else strStartsWith i "utun"

/-- One resolver block of `scutil --dns` output as consulted by the legacy
`is_vpn_active` (src/actions.py:479-490): whether the block mentions
`if_index`, which `(ifname)` tag it carries, and whether some `nameserver[`
entry is present. -/
structure ResolverBlock where
  mentions_if_index : Bool
  interface_tag : Option String
  has_nameserver : Bool
deriving Repr, DecidableEq

/-- Legacy `is_vpn_active` (src/actions.py:445-499): False unless the
default route interface is truthy and starts with "utun"; then False when
`scutil --dns` produced no output; otherwise True iff some resolver block
carries `if_index`, the default interface's tag, and a nameserver entry. -/
def actions_is_vpn_active (default_interface : Option String)
    (dns_output : Option (List ResolverBlock)) : Bool :=
  match default_interface with
  | none => false
  | some i =>
    if i = "" ∨ strStartsWith i "utun" = false then false
    else
      match dns_output with
      | none => false
      | some blocks =>
        blocks.any fun b =>
          b.mentions_if_index && b.interface_tag == some i && b.has_nameserver

/-- C2 counterexample: with the default route on `utun0` and no DNS resolver
entry at all, the exported `network.detection.is_vpn_active` (the one used by
the matching path) returns True, while the claimed iff — implemented only by
the legacy `actions.is_vpn_active` — yields False. -/
theorem vpn_detection_counterexample :
    is_vpn_active (some "utun0") = true ∧
    actions_is_vpn_active (some "utun0") (some []) = false := by
  constructor <;> decide

/-- C2 amended: the legacy `actions.is_vpn_active` returns True iff the
default route interface starts with "utun" AND some resolver block is scoped
to that interface with an active nameserver (and is False when the DNS probe
yields nothing); but the `network.detection.is_vpn_active` actually exported
and used by matching returns True for every default route starting with
"utun", with no resolver condition. -/
theorem vpn_detection_characterization (i : String) (blocks : List ResolverBlock)
    (o : Option (List ResolverBlock)) :
    is_vpn_active (some i) = strStartsWith i "utun" ∧
    is_vpn_active none = false ∧
    (actions_is_vpn_active (some i) (some blocks) = true ↔
      (strStartsWith i "utun" = true ∧
        ∃ b ∈ blocks, b.mentions_if_index = true ∧
          b.interface_tag = some i ∧ b.has_nameserver = true)) ∧
    actions_is_vpn_active none o = false ∧
    actions_is_vpn_active (some i) none = false := by
  refine ⟨?_, rfl, ?_, rfl, ?_⟩
  · by_cases h : i = ""
    · subst h; decide
    · simp [is_vpn_active, h]
  · by_cases h : i = "" ∨ strStartsWith i "utun" = false
    · rw [actions_is_vpn_active, if_pos h]
      constructor
      · intro hc; exact absurd hc (by simp)
      · rintro ⟨hs, -⟩
        rcases h with rfl | h
        · exact absurd hs (by decide)
        · exact absurd hs (by simp [h])
    · rw [actions_is_vpn_active, if_neg h]
      push_neg at h
      simp [List.any_eq_true, h.2, and_assoc]
  · by_cases h : i = "" ∨ strStartsWith i "utun" = false <;>
      simp [actions_is_vpn_active, h]

/-! ### The reactor: evaluation guard and debounce -/

/-- The mutable state touched by `evaluate_network_state`
(src/watcher.py:283-357): the re-entrancy flag `is_evaluating` and whether
the module-level network-state cache (src/network/cache.py) currently holds
entries. -/
structure WatcherState where
  is_evaluating : Bool
  cache_nonempty : Bool
deriving Repr, DecidableEq

/-- `clear_cache` (src/network/cache.py:55-62): empties the cache. -/
def clear_cache (s : WatcherState) : WatcherState := { s with cache_nonempty := false }

/-- Result of one call to `evaluate_network_state`: the state on exit,
whether an exception escaped the call, and whether the try-body ran. -/
structure EvalOutcome where
  state : WatcherState
  raised : Bool
  body_ran : Bool
deriving Repr, DecidableEq

/-- `evaluate_network_state` (src/watcher.py:283-357).  The body of the
`try` (probe, match-only check, conditional apply, menu update) is
abstracted as an arbitrary state transformation `bodyEffect` plus a flag
`bodyRaises` saying whether it raises.  The source guards the body with
`try ... finally` and no `except` clause: the finally block always sets
`is_evaluating` to False and clears the cache, and an exception is then
re-raised to the caller.  The early-skip path
(`if self.is_evaluating: return`) exits before the `try`, leaving the state
untouched. -/
def evaluate_network_state (s : WatcherState) (bodyEffect : WatcherState → WatcherState)
    (bodyRaises : Bool) : EvalOutcome :=
  if s.is_evaluating then ⟨s, false, false⟩
  else
    let s1 := { s with is_evaluating := true }
    let s2 := bodyEffect (clear_cache s1)
    let s3 := clear_cache { s2 with is_evaluating := false }
    ⟨s3, bodyRaises, true⟩

/-- C7 counterexample: a body exception propagates out of
`evaluate_network_state` (there is no `except` clause), and the early-skip
exit leaves the flag set and the cache uncleared — both contradicting the
claim that no exception escapes and that every exit path runs the cleanup. -/
theorem eval_guard_counterexample :
    (evaluate_network_state ⟨false, false⟩ id true).raised = true ∧
    (evaluate_network_state ⟨true, true⟩ id false).state = ⟨true, true⟩ :=
  ⟨rfl, rfl⟩

/-- C7 amended: when no evaluation is in progress, the `finally` block
clears `is_evaluating` and the network-state cache on both normal and
exceptional completion of the body — but a body exception is re-raised to
the caller after that cleanup; the early-skip path returns before the `try`
with the state unchanged and no exception. -/
theorem eval_finally_cleanup (s : WatcherState)
    (bodyEffect : WatcherState → WatcherState) (bodyRaises : Bool) :
    (s.is_evaluating = false →
      (evaluate_network_state s bodyEffect bodyRaises).state.is_evaluating = false ∧
      (evaluate_network_state s bodyEffect bodyRaises).state.cache_nonempty = false ∧
      (evaluate_network_state s bodyEffect bodyRaises).raised = bodyRaises ∧
      (evaluate_network_state s bodyEffect bodyRaises).body_ran = true) ∧
    (s.is_evaluating = true →
      evaluate_network_state s bodyEffect bodyRaises = ⟨s, false, false⟩) := by
  constructor
  · intro h
    simp [evaluate_network_state, clear_cache, h]
  · intro h
    simp [evaluate_network_state, h]

/-- Closed instance of C7 (amended): a cache-repopulating body that raises,
run from idle state, exits with flag and cache cleared and the exception
re-raised; a call during an evaluation is a pure skip. -/
theorem eval_finally_cleanup_witness :
    ((evaluate_network_state ⟨false, true⟩ (fun t => ⟨t.is_evaluating, true⟩)
        true).state.is_evaluating = false ∧
      (evaluate_network_state ⟨false, true⟩ (fun t => ⟨t.is_evaluating, true⟩)
        true).state.cache_nonempty = false ∧
      (evaluate_network_state ⟨false, true⟩ (fun t => ⟨t.is_evaluating, true⟩)
        true).raised = true ∧
      (evaluate_network_state ⟨false, true⟩ (fun t => ⟨t.is_evaluating, true⟩)
        true).body_ran = true) ∧
    evaluate_network_state ⟨true, false⟩ (fun t => ⟨t.is_evaluating, true⟩) false
      = ⟨⟨true, false⟩, false, false⟩ :=
  ⟨(eval_finally_cleanup ⟨false, true⟩ (fun t => ⟨t.is_evaluating, true⟩) true).1 rfl,
    (eval_finally_cleanup ⟨true, false⟩ (fun t => ⟨t.is_evaluating, true⟩) false).2 rfl⟩

/-- The reactor state seen by `sc_callback` (src/watcher.py:262-281): the
pending debounce timer, identified by a fresh id drawn from `next_timer_id`
so that a cancelled timer's callback can be told apart from the live one;
the re-entrancy flag; and the number of evaluations triggered so far. -/
structure ReactorState where
  debounce_timer : Option Nat
  next_timer_id : Nat
  is_evaluating : Bool
  eval_count : Nat
deriving Repr, DecidableEq

/-- `sc_callback` (src/watcher.py:262-281): a notification arriving during
an evaluation is dropped; otherwise any pending debounce timer is cancelled
(`self.debounce_timer.cancel()`) and a fresh timer of `debounce_seconds` is
scheduled in its place. -/
def sc_callback (s : ReactorState) : ReactorState :=
  if s.is_evaluating then s
  else { s with debounce_timer := some s.next_timer_id,
                next_timer_id := s.next_timer_id + 1 }

/-- A debounce timer with identifier `id` reaching its deadline: the
callback of a cancelled timer never runs (`Timer.cancel`), so firing has an
effect only for the live pending id; the live timer runs
`evaluate_network_state`, which skips when an evaluation is in progress and
otherwise performs exactly one evaluation to completion. -/
def timer_fire (s : ReactorState) (id : Nat) : ReactorState :=
  if s.debounce_timer = some id then
    if s.is_evaluating then { s with debounce_timer := none }
    else { s with debounce_timer := none, eval_count := s.eval_count + 1 }
  else s

/-- `n` successive network-change notifications, none interleaved with a
timer deadline or an evaluation. -/
def notify_burst (s : ReactorState) : Nat → ReactorState
  | 0 => s
  | n + 1 => sc_callback (notify_burst s n)

theorem notify_burst_spec (s : ReactorState) (h : s.is_evaluating = false) (n : Nat) :
    (notify_burst s (n + 1)).debounce_timer = some (s.next_timer_id + n) ∧
    (notify_burst s (n + 1)).next_timer_id = s.next_timer_id + n + 1 ∧
    (notify_burst s (n + 1)).is_evaluating = false ∧
    (notify_burst s (n + 1)).eval_count = s.eval_count := by
  induction n with
  | zero => simp [notify_burst, sc_callback, h]
  | succ k ih =>
    obtain ⟨h1, h2, h3, h4⟩ := ih
    have hstep : notify_burst s (k + 1 + 1) = sc_callback (notify_burst s (k + 1)) := rfl
    rw [hstep]
    simp [sc_callback, h3, h2, h4, Nat.add_assoc]

/-- C6: a burst of `N ≥ 1` notifications with no timer deadline in between,
starting outside an evaluation, triggers no evaluation during the burst,
leaves exactly one live timer pending (the one scheduled by the last
notification), whose deadline performs exactly one evaluation; every timer
cancelled during the burst — including the one that was pending before the
burst — fires as a no-op. -/
theorem debounce_burst_single_evaluation (s : ReactorState) (N : Nat)
    (hidle : s.is_evaluating = false)
    (hwf : ∀ j, s.debounce_timer = some j → j < s.next_timer_id)
    (hN : 1 ≤ N) :
    (notify_burst s N).eval_count = s.eval_count ∧
    (notify_burst s N).debounce_timer = some (s.next_timer_id + N - 1) ∧
    (timer_fire (notify_burst s N) (s.next_timer_id + N - 1)).eval_count
      = s.eval_count + 1 ∧
    (∀ j, j < s.next_timer_id + N - 1 →
      timer_fire (notify_burst s N) j = notify_burst s N) ∧
    (∀ j, s.debounce_timer = some j → j < s.next_timer_id + N - 1) := by
  obtain ⟨n, rfl⟩ : ∃ n, N = n + 1 := ⟨N - 1, by omega⟩
  obtain ⟨h1, h2, h3, h4⟩ := notify_burst_spec s hidle n
  have hidx : s.next_timer_id + (n + 1) - 1 = s.next_timer_id + n := by omega
  rw [hidx]
  refine ⟨h4, h1, ?_, ?_, ?_⟩
  · simp [timer_fire, h1, h3, h4]
  · intro j hj
    have hne : ¬((notify_burst s (n + 1)).debounce_timer = some j) := by
      rw [h1]
      intro hc
      exact absurd (Option.some.inj hc) (by omega)
    simp [timer_fire, hne]
  · intro j hj
    have := hwf j hj
    omega

/-- Closed instance of C6: from an idle reactor, three back-to-back
notifications leave one pending timer (id 2), no evaluation has run, firing
the pending timer runs exactly one evaluation, and the two cancelled timers
fire as no-ops. -/
theorem debounce_burst_single_evaluation_witness :
    (notify_burst ⟨none, 0, false, 0⟩ 3).eval_count = 0 ∧
    (notify_burst ⟨none, 0, false, 0⟩ 3).debounce_timer = some 2 ∧
    (timer_fire (notify_burst ⟨none, 0, false, 0⟩ 3) 2).eval_count = 1 ∧
    (∀ j, j < 2 → timer_fire (notify_burst ⟨none, 0, false, 0⟩ 3) j
      = notify_burst ⟨none, 0, false, 0⟩ 3) ∧
    (∀ j, (none : Option Nat) = some j → j < 2) :=
  debounce_burst_single_evaluation ⟨none, 0, false, 0⟩ 3 rfl
    (fun j h => by simp at h) (by omega)

/-! ### Configuration-load repair (src/config.py:69-107) -/

/-- A raw `ssids` entry as read from TOML: a proper string, a malformed
list of strings (single characters) to be re-joined, or a value of any
other type (neither `str` nor `list`; such an entry is dropped whenever the
repaired list replaces the original). -/
inductive SsidEntry
  | str (s : String)
  | strlist (l : List String)
  | other
deriving Repr, DecidableEq

/-- One iteration of the repair loop body (src/config.py:89-94) over a
single entry. -/
def repairSsidEntry : SsidEntry → Option String
  | .str s => some s
  | .strlist l => some (String.join l)
  | .other => none

/-- The loop's `needs_repair`: some entry is list-shaped. -/
def ssidsNeedRepair (l : List SsidEntry) : Bool :=
  l.any fun e => match e with | .strlist _ => true | _ => false

/-- The ssid repair of `load_config` (src/config.py:86-97): the rebuilt
list replaces the original only when some list-shaped entry was found. -/
def repair_ssids (l : List SsidEntry) : List SsidEntry :=
  if ssidsNeedRepair l then (l.filterMap repairSsidEntry).map SsidEntry.str else l

/-- A location table as read from TOML, restricted to the keys the repair
pass inspects (`none` = key absent). -/
structure RawLocation where
  ssids : Option (List SsidEntry)
  domains : Option (List String)
  dns_search_domains : Option (List String)
deriving Repr, DecidableEq

/-- The per-location repair of `load_config` (src/config.py:82-105): repair
malformed ssids, then migrate a legacy `domains` key into
`dns_search_domains` when the latter is absent, deleting `domains` either
way. -/
def repair_location (c : RawLocation) : RawLocation :=
  let c1 := match c.ssids with
    | some l => { c with ssids := some (repair_ssids l) }
    | none => c
  match c1.domains with
  | some d =>
    if c1.dns_search_domains.isNone then
      { c1 with dns_search_domains := some d, domains := none }
    else { c1 with domains := none }
  | none => c1

/-- `load_config`'s repair applied to every location of the mapping. -/
def load_config_repair (locs : List (String × RawLocation)) :
    List (String × RawLocation) :=
  locs.map fun p => (p.1, repair_location p.2)

/-- The claim's per-entry normal form: string entries unchanged,
character-list entries joined into a single string. -/
def canonicalSsidEntry : SsidEntry → SsidEntry
  | .str s => .str s
  | .strlist l => .str (String.join l)
  | .other => .other

theorem repair_ssids_eq_map {l : List SsidEntry}
    (h : ∀ e ∈ l, e ≠ SsidEntry.other) :
    repair_ssids l = l.map canonicalSsidEntry := by
  by_cases hr : ssidsNeedRepair l = true
  · rw [repair_ssids, if_pos hr]
    clear hr
    induction l with
    | nil => rfl
    | cons e rest ih =>
      have hrest : ∀ x ∈ rest, x ≠ SsidEntry.other := fun x hx => h x (by simp [hx])
      cases e with
      | str s =>
        simp [repairSsidEntry, canonicalSsidEntry, ih hrest]
      | strlist t =>
        simp [repairSsidEntry, canonicalSsidEntry, ih hrest]
      | other =>
        exact absurd rfl (h SsidEntry.other (by simp))
  · rw [repair_ssids, if_neg hr]
    clear h
    induction l with
    | nil => rfl
    | cons e rest ih =>
      rw [ssidsNeedRepair, List.any_cons, Bool.or_eq_true, not_or] at hr
      obtain ⟨he, hrest⟩ := hr
      cases e with
      | str s =>
        simp only [List.map_cons, canonicalSsidEntry]
        rw [← ih hrest]
      | strlist t => simp at he
      | other =>
        simp only [List.map_cons, canonicalSsidEntry]
        rw [← ih hrest]

/-- C9: on configuration load, for every location entry the legacy
`domains` key is always removed; its value becomes `dns_search_domains`
exactly when that key was absent (an existing `dns_search_domains` is kept);
the repaired ssids list replaces the original; and on lists whose entries
are strings or character lists, every character-list entry is joined into a
single string while string entries are kept unchanged (in place). -/
theorem config_load_repair (c : RawLocation) :
    (repair_location c).domains = none ∧
    (∀ d, c.domains = some d → c.dns_search_domains = none →
      (repair_location c).dns_search_domains = some d) ∧
    (∀ l, c.dns_search_domains = some l →
      (repair_location c).dns_search_domains = some l) ∧
    (∀ l, c.ssids = some l → (repair_location c).ssids = some (repair_ssids l)) ∧
    (c.ssids = none → (repair_location c).ssids = none) ∧
    (∀ l : List SsidEntry, (∀ e ∈ l, e ≠ SsidEntry.other) →
      repair_ssids l = l.map canonicalSsidEntry) := by
  obtain ⟨ss, dom, dsd⟩ := c
  refine ⟨?_, ?_, ?_, ?_, ?_, fun l h => repair_ssids_eq_map h⟩ <;>
    rcases ss with _ | sl <;> rcases dom with _ | dl <;> rcases dsd with _ | nl <;>
      simp [repair_location]

/-- Closed instance of C9: a location with one well-formed SSID, one
character-list SSID, a legacy `domains` key and no `dns_search_domains` key
is repaired to joined SSIDs, migrated domains, and no `domains` key. -/
theorem config_load_repair_witness :
    (repair_location
        ⟨some [SsidEntry.str "HomeWiFi", SsidEntry.strlist ["C", "o", "r", "p"]],
          some ["corp.com"], none⟩).domains = none ∧
    (repair_location
        ⟨some [SsidEntry.str "HomeWiFi", SsidEntry.strlist ["C", "o", "r", "p"]],
          some ["corp.com"], none⟩).dns_search_domains = some ["corp.com"] ∧
    repair_ssids [SsidEntry.str "HomeWiFi", SsidEntry.strlist ["C", "o", "r", "p"]]
      = [SsidEntry.str "HomeWiFi", SsidEntry.str "Corp"] :=
  ⟨(config_load_repair _).1,
    (config_load_repair
        ⟨some [SsidEntry.str "HomeWiFi", SsidEntry.strlist ["C", "o", "r", "p"]],
          some ["corp.com"], none⟩).2.1 ["corp.com"] rfl rfl,
    (config_load_repair
        ⟨some [SsidEntry.str "HomeWiFi", SsidEntry.strlist ["C", "o", "r", "p"]],
          some ["corp.com"], none⟩).2.2.2.2.2
      [SsidEntry.str "HomeWiFi", SsidEntry.strlist ["C", "o", "r", "p"]] (by decide)⟩

end NetWatcher
